import Mathlib

/-
  A shallow embedding of localizer/hands_on_demo.py: the interactive
  annotation / training / detection state machine of the hands-on demo.

  External collaborators (cv2, the Localizer predictor, the Trainer) are
  modelled by an oracle recording the outcome of each external call; the
  side effects of one loop iteration are recorded in an explicit effect
  trace.  Python floats are modelled by exact rationals, and a Python
  exception by an explicit error value that propagates unless the source
  has a try/except at that point.
-/

/- The rational arithmetic of Batteries is sealed for the elaborator but
fully kernel reducible; the concrete runs of the state machine below are
settled by decide, so the arithmetic is resealed as semireducible. -/
set_option allowUnsafeReducibility true

attribute [semireducible] Rat.mul Rat.add Rat.sub Rat.inv Rat.ofScientific

namespace HandsOnDemo

/-- Session modes, from class Mode in HandsOnDemo: DETECT detects using the
current model, NEW_MODEL creates a new dataset and trains a new model. -/
inductive Mode
  | DETECT
  | NEW_MODEL
deriving DecidableEq, Repr

/-- Python exceptions relevant to the embedded code paths. -/
inductive Exn
  | attributeError
  | indexError
  | loadError
  | predictError
  | trainerError
deriving DecidableEq, Repr

/-- One element of the dataset list built in new model mode, as appended at
lines 152-165 of hands_on_demo.py.  The source stores the angle value
2 pi / 5 * index as a float; here the index is recorded (see calibAngle for
the angle it denotes), since no claim inspects the stored angle value. -/
structure DataElement where
  image : String
  category : ℕ
  originX : ℚ
  originY : ℚ
  angleIdx : ℕ
deriving DecidableEq, Repr

/-- Observable side effects of one pass through the interaction loop. -/
inductive Effect
  | putText (text : String) (y : ℤ)
  | drawPose (x y : ℚ)
  | imgWrite (file : String)
  | datasetWrite (ds : List DataElement)
  | trainerRun
  | loadAttempt (ok : Bool)
  | logExc
  | imshow
  | waitKey
  | printMsg (s : String)
deriving DecidableEq, Repr

/-- Outcomes of the external calls made during one loop iteration:
construction of predict.Localizer, trainer.run, localizer.predict, and the
object list predict returns on success. -/
structure Oracle where
  loadOk : Bool
  trainOk : Bool
  predictOk : Bool
  detections : List (ℚ × ℚ)
deriving DecidableEq, Repr

/-- The mutable session state of HandsOnDemo.  cameraImage holds the
height and width of the resized camera image (None before the first frame);
localizer is the truthiness of the model handle. -/
structure State where
  mode : Mode
  localizer : Bool
  objectSize : ℚ
  scaleFactor : Option ℚ
  viewShape : Option (ℤ × ℤ)
  cameraImage : Option (ℚ × ℚ)
  imageIdx : ℕ
  dataset : Option (List DataElement)
  key : ℤ
deriving DecidableEq, Repr

/-- Result of a handler: normal return with accumulated effects, or a
raised exception together with the effects emitted before the raise. -/
inductive HRes (α : Type)
  | ok (a : α) (fx : List Effect)
  | err (e : Exn) (fx : List Effect)
deriving DecidableEq, Repr

/-- Key codes polled by the loop: ord of q, n, r and space. -/
def keyQuit : ℤ := 113

/-- Key code of n, starting a new collection session. -/
def keyNew : ℤ := 110

/-- Key code of r, the manual retrain trigger. -/
def keyRetrain : ℤ := 114

/-- Key code of space, the capture confirmation. -/
def keySpace : ℤ := 32

/-- File name of the captured image for a given cursor index, from
line 148: strftime applied to a format string without percent directives
returns the string unchanged, so the name is deterministic in the index. -/
def imageFileName (i : ℕ) : String := "image-" ++ toString i ++ ".png"

/-- Python int() on an exact rational: truncation toward zero. -/
def pyInt (q : ℚ) : ℤ := q.num.tdiv q.den

/-- Shape rounding of cv2.resize: round to nearest integer.  All sizes in
this development are nonnegative and never exact halves, so round half up
stands in for the cvRound of OpenCV. -/
def cvRound (q : ℚ) : ℤ := pyInt (q + 1 / 2)

/-- The scale factor computed on the first valid frame (lines 71-74):
desired length objectSize times 6 divided by the larger frame dimension. -/
def scaleFactorOf (objectSize : ℚ) (h w : ℕ) : ℚ :=
  objectSize * 6 / (max h w : ℚ)

/-- The frozen view canvas shape (lines 75-76): height is
int(scale times frame height plus 100), width is
min(int(scale times frame width) plus 1, 640); the channel count is
always 3 and is omitted. -/
def viewShapeOf (objectSize : ℚ) (h w : ℕ) : ℤ × ℤ :=
  (pyInt (scaleFactorOf objectSize h w * h + 100),
   min (pyInt (scaleFactorOf objectSize h w * w) + 1) 640)

/-- Shape of the resized camera image produced by cv2.resize with
fx = fy = scale (line 78), as stored in cameraImage. -/
def resizedShape (scale : ℚ) (h w : ℕ) : ℚ × ℚ :=
  ((cvRound (scale * h) : ℚ), (cvRound (scale * w) : ℚ))

/-- The five calibration target positions of new model mode
(lines 136-142), as (x, y) pairs computed from the resized camera image
height h, width w and the object size: the image center followed by the
four corners, each inset by the object size along both axes. -/
def positions (h w objectSize : ℚ) : List (ℚ × ℚ) :=
  [(w / 2, h / 2),
   (objectSize, objectSize),
   (w - objectSize, objectSize),
   (w - objectSize, h - objectSize),
   (objectSize, h - objectSize)]

/-- The calibration angle of pose i (line 144):
2 pi divided by the number of positions, times the cursor index. -/
noncomputable def calibAngle (h w objectSize : ℚ) (i : ℕ) : ℝ :=
  2 * Real.pi / ((positions h w objectSize).length : ℝ) * (i : ℝ)

/-- The pose list the collection handler computes in a given state: the
positions for the current resized camera image shape and object size
(line 135 reads s from the camera image, lines 136-142 build the list). -/
def posesOf (st : State) : Option (List (ℚ × ℚ)) :=
  st.cameraImage.map (fun s => positions s.1 s.2 st.objectSize)

/-- The corners of the resized camera image, in the order matching
positions 1 to 4: top left, top right, bottom right, bottom left. -/
def cornersOf (h w : ℚ) : List (ℚ × ℚ) :=
  [(0, 0), (w, 0), (w, h), (0, h)]

/-- Coordinatewise distances of the four corner calibration positions from
their image corners. -/
def cornerOffsets (h w objectSize : ℚ) : List (ℚ × ℚ) :=
  (List.zip ((positions h w objectSize).drop 1) (cornersOf h w)).map
    (fun pc => (|pc.1.1 - pc.2.1|, |pc.1.2 - pc.2.2|))

/-- The method put text (lines 98-105): computes the text origin from
the shape of the camera image, so it raises an AttributeError when the
camera image is still None; otherwise it draws the text on the view
canvas.  The trace records the text and the raw y offset. -/
def put_text (st : State) (text : String) (y : ℤ) : HRes Unit :=
  match st.cameraImage with
  | none => .err .attributeError []
  | some _ => .ok () [.putText text y]

/-- Construction of predict.Localizer from the config path (line 128), an
external call that may raise. -/
def localizerCtor (o : Oracle) : Except Exn Unit :=
  if o.loadOk then .ok () else .error .loadError

/-- The localizer predict call (line 111), an external call that may
raise; on success it returns the detected objects. -/
def predictCall (o : Oracle) : Except Exn (List (ℚ × ℚ)) :=
  if o.predictOk then .ok o.detections else .error .predictError

/-- The method load model (lines 126-132): tries to construct the
Localizer and on success switches the mode to DETECT; every exception is
caught, logged, and leaves the model handle absent.  It never raises. -/
def load_model (o : Oracle) (st : State) : State × List Effect :=
  match localizerCtor o with
  | .ok _ => ({ st with localizer := true, mode := Mode.DETECT }, [.loadAttempt true])
  | .error _ => ({ st with localizer := false }, [.loadAttempt false, .logExc])

/-- The method train (lines 176-185): shows the waiting caption (which
dereferences the camera image and can raise), displays the view, runs the
trainer synchronously (an exception from it is not caught and
propagates), then reloads the model and prints the done message. -/
def train (o : Oracle) (st : State) : HRes State :=
  match put_text st "Training, please wait..." 20 with
  | .err e fx => .err e fx
  | .ok _ fx0 =>
    let fx1 := fx0 ++ [Effect.imshow, Effect.waitKey, Effect.trainerRun]
    if o.trainOk then
      let r := load_model o st
      .ok r.1 (fx1 ++ r.2 ++ [Effect.printMsg "Training done!"])
    else
      .err .trainerError fx1

/-- The method detect (lines 107-119): when a model is loaded, builds the
normalized input, predicts, draws each detected pose and shows the
detecting caption; any exception inside this block is caught, logged and
demotes the model handle to absent.  Afterwards, outside the try block,
the no model caption is shown whenever the handle is absent. -/
def detect (o : Oracle) (st : State) : HRes State :=
  let body : HRes State :=
    if st.localizer then
      match predictCall o with
      | .error e => .err e []
      | .ok objs =>
        match put_text st "Detecting. Show object to the camera." 20 with
        | .err e fx => .err e (objs.map (fun p => Effect.drawPose p.1 p.2) ++ fx)
        | .ok _ fx => .ok st (objs.map (fun p => Effect.drawPose p.1 p.2) ++ fx)
    else .ok st []
  match body with
  | .ok st1 fx =>
    if st1.localizer then .ok st1 fx
    else
      match put_text st1 "No model loaded" 80 with
      | .ok _ fx2 => .ok st1 (fx ++ fx2)
      | .err e fx2 => .err e (fx ++ fx2)
  | .err _ fx =>
    let st1 := { st with localizer := false }
    match put_text st1 "No model loaded" 80 with
    | .ok _ fx2 => .ok st1 (fx ++ [.logExc] ++ fx2)
    | .err e fx2 => .err e (fx ++ [.logExc] ++ fx2)

/-- The method new model (lines 134-174): reads the camera image shape
(AttributeError when it is None), computes the calibration positions,
indexes them at the cursor (IndexError when the cursor is out of range,
before the key is examined), draws the target pose, and on the space key
captures the normalized image, appends the labeled sample and advances the
cursor; when the cursor reaches the number of positions the dataset is
written and training is triggered.  Otherwise guidance captions are
shown. -/
def new_model (o : Oracle) (st : State) : HRes State :=
  match st.cameraImage with
  | none => .err .attributeError []
  | some s =>
    let ps := positions s.1 s.2 st.objectSize
    match ps[st.imageIdx]? with
    | none => .err .indexError []
    | some pos =>
      let fx0 := [Effect.drawPose pos.1 pos.2]
      if st.key = keySpace then
        let file := imageFileName st.imageIdx
        let fx1 := fx0 ++ [Effect.imgWrite file]
        match st.dataset with
        | none => .err .attributeError fx1
        | some ds =>
          let elem : DataElement :=
            { image := file, category := 0,
              originX := pos.1, originY := pos.2, angleIdx := st.imageIdx }
          let ds2 := ds ++ [elem]
          let st2 := { st with dataset := some ds2, imageIdx := st.imageIdx + 1 }
          if st2.imageIdx = ps.length then
            let fx2 := fx1 ++ [Effect.datasetWrite ds2]
            match train o st2 with
            | .ok st3 fx3 => .ok st3 (fx2 ++ fx3)
            | .err e fx3 => .err e (fx2 ++ fx3)
          else .ok st2 fx1
      else
        match put_text st ("Image #" ++ toString (st.imageIdx + 1) ++ " of " ++ toString ps.length) 20 with
        | .err e fx => .err e (fx0 ++ fx)
        | .ok _ fxA =>
          match put_text st "Place object to shown position and orientation" 50 with
          | .err e fx => .err e (fx0 ++ fxA ++ fx)
          | .ok _ fxB =>
            match put_text st "and press space" 80 with
            | .err e fx => .err e (fx0 ++ fxA ++ fxB ++ fx)
            | .ok _ fxC => .ok st (fx0 ++ fxA ++ fxB ++ fxC)

/-- The key dispatch at the top of the loop body (lines 53-58), after the
quit key has been handled: n enters new model mode and resets the cursor
and the dataset; r triggers a manual retrain (whose exceptions
propagate); any other key leaves the state unchanged. -/
def handleKeys (o : Oracle) (st : State) (key : ℤ) : HRes State :=
  if key = keyNew then
    .ok { st with mode := Mode.NEW_MODEL, imageIdx := 0, dataset := some [] } []
  else if key = keyRetrain then
    train o st
  else .ok st []

/-- The frame pipeline of one iteration (lines 69-80): the mirror flip
does not change the shape; on the first valid frame the scale factor and
the view shape are computed and frozen; then the resized camera image
shape is stored and a fresh view canvas is composited. -/
def processFrame (st : State) (shape : List ℕ) : State :=
  let h := shape.getD 0 0
  let w := shape.getD 1 0
  let st2 :=
    match st.scaleFactor with
    | some _ => st
    | none =>
      { st with scaleFactor := some (scaleFactorOf st.objectSize h w),
                viewShape := some (viewShapeOf st.objectSize h w) }
  { st2 with cameraImage := some (resizedShape (st2.scaleFactor.getD 0) h w) }

/-- The mode dispatch of one iteration (lines 82-86): DETECT shows the
menu caption and runs detection, NEW_MODEL runs the collection handler. -/
def dispatchMode (o : Oracle) (st : State) : HRes State :=
  match st.mode with
  | Mode.DETECT =>
    match put_text st "Press n to train new model, q to quit" 50 with
    | .err e fx => .err e fx
    | .ok _ fxA =>
      match detect o st with
      | .ok st2 fxB => .ok st2 (fxA ++ fxB)
      | .err e fxB => .err e (fxA ++ fxB)
  | Mode.NEW_MODEL => new_model o st

/-- Outcome of one iteration of the run loop: continue with the next
frame, break on the quit key, terminate via sys.exit on a non color
frame, or terminate with an uncaught exception. -/
inductive StepResult
  | next (st : State) (fx : List Effect)
  | quit (st : State) (fx : List Effect)
  | exit (fx : List Effect)
  | exn (e : Exn) (fx : List Effect)
deriving DecidableEq, Repr

/-- One iteration of the run loop (lines 49-88): poll the key, handle
quit, new session and retrain, read the camera frame (a missing frame is
logged and skipped), terminate on a non color frame, run the frame
pipeline, dispatch on the mode, and display the canvas.  The frame
argument is the shape of the frame delivered by the camera, or none. -/
def step (o : Oracle) (st0 : State) (key : ℤ) (frame : Option (List ℕ)) : StepResult :=
  let st := { st0 with key := key }
  if key = keyQuit then .quit st []
  else
    match handleKeys o st key with
    | .err e fx1 => .exn e fx1
    | .ok st1 fx1 =>
      match frame with
      | none => .next st1 (fx1 ++ [Effect.printMsg "Cannot read camera frame"])
      | some shape =>
        if shape.length = 3 ∧ shape.get? 2 = some 3 then
          let st3 := processFrame st1 shape
          match dispatchMode o st3 with
          | .ok st4 fx2 => .next st4 (fx1 ++ fx2 ++ [Effect.imshow])
          | .err e fx2 => .exn e (fx1 ++ fx2)
        else .exit (fx1 ++ [Effect.printMsg "Must be a color image"])

/-- One scripted input of the loop: the polled key, the delivered camera
frame shape, and the oracle for the external calls of this iteration. -/
structure Inp where
  key : ℤ
  frame : Option (List ℕ)
  oracle : Oracle
deriving DecidableEq, Repr

/-- Result of running the loop on a finite script of inputs. -/
inductive RunResult
  | running (st : State) (fx : List Effect)
  | quit (st : State) (fx : List Effect)
  | exited (fx : List Effect)
  | exn (e : Exn) (fx : List Effect)
deriving DecidableEq, Repr

/-- Run the loop over a list of scripted inputs, accumulating the effect
trace and stopping at quit, sys.exit or an uncaught exception. -/
def runLoop (st : State) : List Inp → RunResult
  | [] => .running st []
  | i :: rest =>
    match step i.oracle st i.key i.frame with
    | .next st1 fx =>
      match runLoop st1 rest with
      | .running st2 fx2 => .running st2 (fx ++ fx2)
      | .quit st2 fx2 => .quit st2 (fx ++ fx2)
      | .exited fx2 => .exited (fx ++ fx2)
      | .exn e fx2 => .exn e (fx ++ fx2)
    | .quit st1 fx => .quit st1 fx
    | .exit fx => .exited fx
    | .exn e fx => .exn e fx

/-- The effect trace of a run result. -/
def fxOf : RunResult → List Effect
  | .running _ fx => fx
  | .quit _ fx => fx
  | .exited fx => fx
  | .exn _ _fx => _fx

/-- The surviving session state of a run result, when the process did not
terminate. -/
def stateOf? : RunResult → Option State
  | .running st _ => some st
  | .quit st _ => some st
  | .exited _ => none
  | .exn _ _ => none

/-- The session state built by the constructor (lines 33-43) before the
startup model load: DETECT mode, no model handle, no frame seen yet. -/
def initState (objectSize : ℚ) : State :=
  { mode := Mode.DETECT, localizer := false, objectSize := objectSize,
    scaleFactor := none, viewShape := none, cameraImage := none,
    imageIdx := 0, dataset := none, key := -1 }

/-- The constructor including the startup load model call (line 46). -/
def initSession (o : Oracle) (objectSize : ℚ) : State × List Effect :=
  load_model o (initState objectSize)

/-- The dataset write payloads occurring in an effect trace. -/
def datasetWrites (fx : List Effect) : List (List DataElement) :=
  fx.filterMap (fun e => match e with | .datasetWrite ds => some ds | _ => none)

/-- The image file names written in an effect trace, in order. -/
def imgWriteFiles (fx : List Effect) : List String :=
  fx.filterMap (fun e => match e with | .imgWrite f => some f | _ => none)

/-- The number of trainer invocations in an effect trace. -/
def countTrainerRuns (fx : List Effect) : ℕ :=
  (fx.filter (fun e => decide (e = Effect.trainerRun))).length

/-- True when every dataset write in the trace is immediately followed by
the first effect of the train handler, the waiting caption. -/
def datasetWriteThenTraining : List Effect → Bool
  | [] => true
  | Effect.datasetWrite _ :: rest =>
    match rest with
    | Effect.putText t y :: rest2 =>
      decide (t = "Training, please wait...") && decide (y = 20) &&
        datasetWriteThenTraining rest2
    | _ => false
  | _ :: rest => datasetWriteThenTraining rest

/-! ## Pixel level normalization, for the shared input conditioning -/

/-- A camera image at pixel level: rows of real valued pixels. -/
def PixImage : Type := List (List ℝ)

/-- The method make input (lines 121-124) at pixel level: divide by 255
and raise to the power one half. -/
noncomputable def make_input (p : ℝ) : ℝ := (p / 255) ^ (0.5 : ℝ)

/-- The method make input applied to a whole image. -/
noncomputable def make_input_image (img : PixImage) : PixImage :=
  img.map (List.map make_input)

/-- The model input built in detect (line 110): the make input
normalization of the camera image. -/
noncomputable def detect_input (img : PixImage) : PixImage :=
  make_input_image img

/-- The image persisted on capture (line 150): the make input
normalization of the camera image rescaled by 255. -/
noncomputable def captured_image (img : PixImage) : PixImage :=
  (make_input_image img).map (List.map (fun p => p * 255))

/-! ## Concrete scenario data -/

/-- The frame shape of the scenario: a 480 by 640 color frame. -/
def validFrame : List ℕ := [480, 640, 3]

/-- Oracle of a session whose model load fails and whose training
succeeds. -/
def demoOracleNoLoad : Oracle :=
  { loadOk := false, trainOk := true, predictOk := true, detections := [] }

/-- The scripted collection session: the new session key followed by five
capture confirmations, each with a valid frame. -/
def collectScript (o : Oracle) : List Inp :=
  { key := keyNew, frame := some validFrame, oracle := o } ::
    List.replicate 5 { key := keySpace, frame := some validFrame, oracle := o }

/-- The run of a full collection session whose post training reload
fails. -/
def stuckRun : RunResult :=
  runLoop (initSession demoOracleNoLoad 60).1 (collectScript demoOracleNoLoad)

/-- The dataset produced by the scripted session: object size 60, frame
480 by 640, hence scale 9 / 16 and resized image 270 by 360. -/
def expectedDataset : List DataElement :=
  [{ image := "image-0.png", category := 0, originX := 180, originY := 135, angleIdx := 0 },
   { image := "image-1.png", category := 0, originX := 60, originY := 60, angleIdx := 1 },
   { image := "image-2.png", category := 0, originX := 300, originY := 60, angleIdx := 2 },
   { image := "image-3.png", category := 0, originX := 300, originY := 210, angleIdx := 3 },
   { image := "image-4.png", category := 0, originX := 60, originY := 210, angleIdx := 4 }]

/-- A state in which a frame has already been processed: used to exercise
handlers whose precondition is a present camera image. -/
def readySt : State :=
  { initState 60 with cameraImage := some (270, 360),
                      scaleFactor := some (9 / 16), viewShape := some (370, 361) }

/-- The session state left behind by stuckRun: the post training reload
failed, so the mode is still NEW_MODEL while the cursor is at 5. -/
def stuckState : State :=
  { mode := Mode.NEW_MODEL, localizer := false, objectSize := 60,
    scaleFactor := some (9 / 16), viewShape := some (370, 361),
    cameraImage := some (270, 360), imageIdx := 5,
    dataset := some expectedDataset, key := 32 }

/-! ## Theorems -/

/-- C1: the code violates the claim.  Running a full collection session
whose post training reload fails leaves the session in NEW_MODEL mode with
the cursor at N = 5; on the next confirmation event the capture handler
does not ignore the event: it indexes the position list at 5, out of
range, and raises an IndexError that terminates the loop. -/
theorem capture_event_at_full_cursor_raises_index_error :
    stateOf? stuckRun = some stuckState ∧
    stuckState.imageIdx = 5 ∧
    stuckState.mode = Mode.NEW_MODEL ∧
    step demoOracleNoLoad stuckState keySpace (some validFrame) =
      StepResult.exn Exn.indexError [] := by decide

/-- C2, counterexample: after the new session key and five confirmations,
when the post training reload fails the session mode does not return to
DETECT but remains in collection mode. -/
theorem reload_failure_leaves_collection_mode :
    (stateOf? stuckRun).map State.mode = some Mode.NEW_MODEL ∧
    (stateOf? stuckRun).map State.mode ≠ some Mode.DETECT := by decide

/-- C2, amended: after the new session key and five confirmations the
dataset is written with five samples, training is triggered exactly once
and a reload is attempted; the mode returns to DETECT exactly when the
reload succeeds, and remains in collection mode when it fails. -/
theorem collect_session_writes_trains_and_reloads (lo : Bool) :
    (let o : Oracle := { loadOk := lo, trainOk := true, predictOk := true, detections := [] }
     let r := runLoop (initSession o 60).1 (collectScript o)
     datasetWrites (fxOf r) = [expectedDataset] ∧
     expectedDataset.length = 5 ∧
     countTrainerRuns (fxOf r) = 1 ∧
     Effect.loadAttempt lo ∈ fxOf r ∧
     (stateOf? r).map State.mode = some (if lo then Mode.DETECT else Mode.NEW_MODEL)) := by
  cases lo <;> decide

/-- C3, counterexample: when the trainer raises, the train handler
propagates the exception and no model load is attempted afterwards, so
the load is not attempted for every training outcome. -/
theorem trainer_exception_skips_reload :
    train { loadOk := true, trainOk := false, predictOk := true, detections := [] } readySt =
      HRes.err Exn.trainerError
        [Effect.putText "Training, please wait..." 20, Effect.imshow,
         Effect.waitKey, Effect.trainerRun] ∧
    (∀ b : Bool, Effect.loadAttempt b ∉
        [Effect.putText "Training, please wait..." 20, Effect.imshow,
         Effect.waitKey, Effect.trainerRun]) := by decide

/-- C4, counterexample: for a 270 by 360 camera image and object size 60,
each corner calibration position lies at coordinatewise distance 60 from
its image corner, which is the full object size and not half of it. -/
theorem corner_offset_equals_full_object_size_not_half :
    cornerOffsets 270 360 60 = List.replicate 4 (60, 60) ∧
    cornerOffsets 270 360 60 ≠ List.replicate 4 ((60 : ℚ) / 2, (60 : ℚ) / 2) := by decide

/-- C5: in a collection session reaching cursor 5, for every oracle, the
dataset is written exactly once, with exactly five entries whose image
fields are the files written during collection in capture order, named
by index, and the write is immediately followed by the start of
training. -/
theorem dataset_written_once_before_training (lo tr pr : Bool) :
    (let o : Oracle := { loadOk := lo, trainOk := tr, predictOk := pr, detections := [] }
     let r := runLoop (initSession o 60).1 (collectScript o)
     datasetWrites (fxOf r) = [expectedDataset] ∧
     expectedDataset.length = 5 ∧
     imgWriteFiles (fxOf r) = expectedDataset.map DataElement.image ∧
     expectedDataset.map DataElement.image = (List.range 5).map imageFileName ∧
     datasetWriteThenTraining (fxOf r) = true) := by
  cases lo <;> cases tr <;> cases pr <;> decide

/-- C7: detection input and dataset capture share the one normalization,
pixel to (pixel divided by 255) to the power one half, and the persisted
captured image is exactly the normalized image rescaled by 255. -/
theorem detection_and_capture_share_normalization :
    (∀ p : ℝ, make_input p = (p / 255) ^ (0.5 : ℝ)) ∧
    (∀ img : PixImage, detect_input img = make_input_image img) ∧
    (∀ img : PixImage,
      captured_image img = (detect_input img).map (List.map (fun p => p * 255))) ∧
    (∀ img : PixImage,
      captured_image img = img.map (List.map (fun p => (p / 255) ^ (0.5 : ℝ) * 255))) := by
  refine ⟨fun _ => rfl, fun _ => rfl, fun _ => rfl, fun img => ?_⟩
  simp only [captured_image, make_input_image, List.map_map, Function.comp_def, make_input]

/-- C8: the calibration pose list is a deterministic function of the
camera image dimensions and the object size, and the angle of pose i is
2 pi times i divided by 5. -/
theorem calibration_poses_deterministic_with_angle_formula
    (st st2 : State) (i : ℕ)
    (hcam : st.cameraImage = st2.cameraImage) (hobj : st.objectSize = st2.objectSize) :
    posesOf st = posesOf st2 ∧
    (∀ h w objectSize : ℚ, calibAngle h w objectSize i = 2 * Real.pi * (i : ℝ) / 5) := by
  refine ⟨by simp [posesOf, hcam, hobj], fun h w objectSize => ?_⟩
  simp only [calibAngle, positions, List.length]
  norm_num
  ring

/-- Witness for C8 at two identical concrete states and pose index 1. -/
theorem calibration_poses_deterministic_witness :
    posesOf readySt = posesOf readySt ∧
    (∀ h w objectSize : ℚ, calibAngle h w objectSize 1 = 2 * Real.pi * ((1 : ℕ) : ℝ) / 5) :=
  calibration_poses_deterministic_with_angle_formula readySt readySt 1 rfl rfl

/-- Helper: load model never changes the scale factor or the view
shape. -/
theorem load_model_scaleFactor (o : Oracle) (st : State) :
    (load_model o st).1.scaleFactor = st.scaleFactor ∧
    (load_model o st).1.viewShape = st.viewShape := by
  cases hlo : o.loadOk <;> simp [load_model, localizerCtor, hlo]

/-- Helper: a normal return of train keeps the scale factor and the view
shape. -/
theorem train_ok_scaleFactor (o : Oracle) (st st2 : State) (fx : List Effect)
    (h : train o st = HRes.ok st2 fx) :
    st2.scaleFactor = st.scaleFactor ∧ st2.viewShape = st.viewShape := by
  cases hc : st.cameraImage with
  | none => simp [train, put_text, hc] at h
  | some ci =>
    cases ht : o.trainOk with
    | false => simp [train, put_text, hc, ht] at h
    | true =>
      simp [train, put_text, hc, ht] at h
      obtain ⟨h1, _⟩ := h
      rw [← h1]
      exact load_model_scaleFactor o st

/-- Helper: a normal return of detect keeps the scale factor and the view
shape. -/
theorem detect_ok_scaleFactor (o : Oracle) (st st2 : State) (fx : List Effect)
    (ci : ℚ × ℚ) (hci : st.cameraImage = some ci)
    (h : detect o st = HRes.ok st2 fx) :
    st2.scaleFactor = st.scaleFactor ∧ st2.viewShape = st.viewShape := by
  cases hl : st.localizer with
  | false =>
    simp [detect, put_text, predictCall, hci, hl] at h
    obtain ⟨h1, _⟩ := h
    subst h1
    exact ⟨rfl, rfl⟩
  | true =>
    cases hp : o.predictOk with
    | true =>
      simp [detect, put_text, predictCall, hci, hl, hp] at h
      obtain ⟨h1, _⟩ := h
      subst h1
      exact ⟨rfl, rfl⟩
    | false =>
      simp [detect, put_text, predictCall, hci, hl, hp] at h
      obtain ⟨h1, _⟩ := h
      subst h1
      exact ⟨rfl, rfl⟩

/-- Helper: a normal return of the collection handler keeps the scale
factor and the view shape. -/
theorem new_model_ok_scaleFactor (o : Oracle) (st st2 : State) (fx : List Effect)
    (h : new_model o st = HRes.ok st2 fx) :
    st2.scaleFactor = st.scaleFactor ∧ st2.viewShape = st.viewShape := by
  cases hc : st.cameraImage with
  | none => simp [new_model, hc] at h
  | some s =>
    cases hg : (positions s.1 s.2 st.objectSize)[st.imageIdx]? with
    | none => simp [new_model, hc, hg] at h
    | some pos =>
      by_cases hk : st.key = keySpace
      · cases hd : st.dataset with
        | none => simp [new_model, hc, hg, hk, hd] at h
        | some ds =>
          by_cases hfin : st.imageIdx + 1 = (positions s.1 s.2 st.objectSize).length
          · simp [new_model, hc, hg, hk, hd, hfin] at h
            split at h
            · rename_i st3 fx3 htr
              simp at h
              obtain ⟨h1, _⟩ := h
              subst h1
              have hsf := train_ok_scaleFactor o _ st3 fx3 htr
              exact hsf
            · simp at h
          · simp [new_model, hc, hg, hk, hd, hfin] at h
            obtain ⟨h1, _⟩ := h
            subst h1
            exact ⟨rfl, rfl⟩
      · simp [new_model, hc, hg, hk, put_text] at h
        obtain ⟨h1, _⟩ := h
        subst h1
        exact ⟨rfl, rfl⟩

/-- Helper: a normal return of the key dispatch keeps the scale factor
and the view shape. -/
theorem handleKeys_ok_scaleFactor (o : Oracle) (st st1 : State) (key : ℤ)
    (fx : List Effect) (h : handleKeys o st key = HRes.ok st1 fx) :
    st1.scaleFactor = st.scaleFactor ∧ st1.viewShape = st.viewShape := by
  by_cases hn : key = keyNew
  · simp [handleKeys, hn] at h
    obtain ⟨h1, _⟩ := h
    subst h1
    exact ⟨rfl, rfl⟩
  · by_cases hr : key = keyRetrain
    · simp [handleKeys, hn, hr] at h
      exact train_ok_scaleFactor o st st1 fx h
    · simp [handleKeys, hn, hr] at h
      obtain ⟨h1, _⟩ := h
      subst h1
      exact ⟨rfl, rfl⟩

/-- Helper: the frame pipeline keeps an already frozen scale factor and
leaves the view shape untouched. -/
theorem processFrame_scaleFactor_some (st : State) (shape : List ℕ) (q : ℚ)
    (hq : st.scaleFactor = some q) :
    (processFrame st shape).scaleFactor = some q ∧
    (processFrame st shape).viewShape = st.viewShape := by
  simp [processFrame, hq]

/-- Helper: the frame pipeline always stores a camera image. -/
theorem processFrame_cameraImage (st : State) (shape : List ℕ) :
    ∃ ci, (processFrame st shape).cameraImage = some ci := by
  cases hs : st.scaleFactor <;> simp [processFrame, hs]

/-- Helper: a normal return of the mode dispatch keeps the scale factor. -/
theorem dispatchMode_ok_scaleFactor (o : Oracle) (st st2 : State) (fx : List Effect)
    (ci : ℚ × ℚ) (hci : st.cameraImage = some ci)
    (h : dispatchMode o st = HRes.ok st2 fx) :
    st2.scaleFactor = st.scaleFactor ∧ st2.viewShape = st.viewShape := by
  cases hm : st.mode with
  | DETECT =>
    simp [dispatchMode, hm, put_text, hci] at h
    cases hd : detect o st with
    | ok st3 fx3 =>
      rw [hd] at h
      simp at h
      obtain ⟨h1, _⟩ := h
      subst h1
      exact detect_ok_scaleFactor o st st3 fx3 ci hci hd
    | err e fx3 =>
      rw [hd] at h
      simp at h
  | NEW_MODEL =>
    simp only [dispatchMode, hm] at h
    exact new_model_ok_scaleFactor o st st2 fx h

/-- Helper: every continuing or quitting loop iteration keeps a frozen
scale factor and a frozen view canvas shape. -/
theorem step_preserves_scaleFactor (o : Oracle) (st0 st1 : State) (key : ℤ)
    (frame : Option (List ℕ)) (fx : List Effect) (q : ℚ) (vs : ℤ × ℤ)
    (hq : st0.scaleFactor = some q) (hv : st0.viewShape = some vs)
    (h : step o st0 key frame = StepResult.next st1 fx ∨
         step o st0 key frame = StepResult.quit st1 fx) :
    st1.scaleFactor = some q ∧ st1.viewShape = some vs := by
  by_cases hko : key = keyQuit
  · rcases h with h | h
    · simp [step, hko] at h
    · simp [step, hko] at h
      obtain ⟨h1, _⟩ := h
      subst h1
      exact ⟨hq, hv⟩
  · cases hh : handleKeys o { st0 with key := key } key with
    | err e fx1 =>
      rcases h with h | h <;> simp [step, hko, hh] at h
    | ok stA fx1 =>
      obtain ⟨hk1, hk2⟩ := handleKeys_ok_scaleFactor o _ stA key fx1 hh
      have hA : stA.scaleFactor = some q := by
        rw [hk1]
        exact hq
      have hAv : stA.viewShape = some vs := by
        rw [hk2]
        exact hv
      cases frame with
      | none =>
        rcases h with h | h
        · simp [step, hko, hh] at h
          obtain ⟨h1, _⟩ := h
          subst h1
          exact ⟨hA, hAv⟩
        · simp [step, hko, hh] at h
      | some shape =>
        obtain ⟨hpfq, hpfv⟩ := processFrame_scaleFactor_some stA shape q hA
        obtain ⟨ci, hci⟩ := processFrame_cameraImage stA shape
        rcases h with h | h
        · simp only [step] at h
          rw [if_neg hko, hh] at h
          simp only at h
          split at h
          · split at h
            · rename_i stB fxB hd
              simp only [StepResult.next.injEq] at h
              obtain ⟨h1, _⟩ := h
              subst h1
              obtain ⟨hsf, hsv⟩ := dispatchMode_ok_scaleFactor o _ stB fxB ci hci hd
              refine ⟨?_, ?_⟩
              · rw [hsf]
                exact hpfq
              · rw [hsv, hpfv]
                exact hAv
            · exact StepResult.noConfusion h
          · exact StepResult.noConfusion h
        · simp only [step] at h
          rw [if_neg hko, hh] at h
          simp only at h
          split at h
          · split at h
            · exact StepResult.noConfusion h
            · exact StepResult.noConfusion h
          · exact StepResult.noConfusion h

/-- Helper: on a valid frame arriving while the scale factor is still
unset, in DETECT mode with no key pressed, the iteration continues and
stores exactly the scale factor and view shape formulas. -/
theorem step_first_frame_sets_scale (o : Oracle) (st : State) (h w : ℕ)
    (hmode : st.mode = Mode.DETECT) (hnone : st.scaleFactor = none) :
    ∃ st2 fx, step o st (-1) (some [h, w, 3]) = StepResult.next st2 fx ∧
      st2.scaleFactor = some (scaleFactorOf st.objectSize h w) ∧
      st2.viewShape = some (viewShapeOf st.objectSize h w) := by
  obtain ⟨mode, loc, os, sf, vs, ci, idx, ds, k⟩ := st
  simp only at hmode hnone
  subst hmode
  subst hnone
  obtain ⟨lo, tr, pk, det⟩ := o
  cases pk <;> cases loc <;> exact ⟨_, _, rfl, rfl, rfl⟩

/-- C9: the scale factor is computed once, on the first valid frame, as
object size times 6 over the larger frame dimension, and both it and the
view canvas shape are frozen for the rest of the session (every
continuing or quitting iteration preserves them); for a 480 by 640 by 3
first frame with object size 60 the scale factor equals 0.5625, the
canvas height is at least 370 and the canvas width equals 361. -/
theorem scale_factor_computed_once_and_frozen (o : Oracle) (st : State) (h w : ℕ)
    (hmode : st.mode = Mode.DETECT) (hnone : st.scaleFactor = none) :
    scaleFactorOf 60 480 640 = 0.5625 ∧
    viewShapeOf 60 480 640 = (370, 361) ∧
    (370 : ℤ) ≤ (viewShapeOf 60 480 640).1 ∧
    (∃ st2 fx, step o st (-1) (some [h, w, 3]) = StepResult.next st2 fx ∧
      st2.scaleFactor = some (scaleFactorOf st.objectSize h w) ∧
      st2.viewShape = some (viewShapeOf st.objectSize h w)) ∧
    (∀ (o2 : Oracle) (st3 st4 : State) (key : ℤ) (frame : Option (List ℕ))
       (fx : List Effect) (q : ℚ) (vs : ℤ × ℤ),
      st3.scaleFactor = some q → st3.viewShape = some vs →
      step o2 st3 key frame = StepResult.next st4 fx ∨
        step o2 st3 key frame = StepResult.quit st4 fx →
      st4.scaleFactor = some q ∧ st4.viewShape = some vs) := by
  refine ⟨by decide, by decide, by decide,
    step_first_frame_sets_scale o st h w hmode hnone,
    fun o2 st3 st4 key frame fx q vs hq hv hstep =>
      step_preserves_scaleFactor o2 st3 st4 key frame fx q vs hq hv hstep⟩

/-- Witness for C9 at the initial state with a 480 by 640 frame. -/
theorem scale_factor_computed_once_witness :
    scaleFactorOf 60 480 640 = 0.5625 ∧
    viewShapeOf 60 480 640 = (370, 361) ∧
    (370 : ℤ) ≤ (viewShapeOf 60 480 640).1 ∧
    (∃ st2 fx, step demoOracleNoLoad (initState 60) (-1) (some [480, 640, 3]) =
        StepResult.next st2 fx ∧
      st2.scaleFactor = some (scaleFactorOf (initState 60).objectSize 480 640) ∧
      st2.viewShape = some (viewShapeOf (initState 60).objectSize 480 640)) ∧
    (∀ (o2 : Oracle) (st3 st4 : State) (key : ℤ) (frame : Option (List ℕ))
       (fx : List Effect) (q : ℚ) (vs : ℤ × ℤ),
      st3.scaleFactor = some q → st3.viewShape = some vs →
      step o2 st3 key frame = StepResult.next st4 fx ∨
        step o2 st3 key frame = StepResult.quit st4 fx →
      st4.scaleFactor = some q ∧ st4.viewShape = some vs) :=
  scale_factor_computed_once_and_frozen demoOracleNoLoad (initState 60) 480 640 rfl rfl

/-- C3, amended: the trainer is invoked synchronously and a model load is
attempted afterwards exactly when the trainer returns normally; a trainer
exception propagates out of the train handler with no load attempt. -/
theorem reload_attempted_iff_trainer_succeeds (o : Oracle) (st : State) (ci : ℚ × ℚ)
    (hci : st.cameraImage = some ci) :
    (o.trainOk = true →
      ∃ st2 fx, train o st = HRes.ok st2 fx ∧ Effect.loadAttempt o.loadOk ∈ fx) ∧
    (o.trainOk = false →
      ∃ fx, train o st = HRes.err Exn.trainerError fx ∧
        ∀ b : Bool, Effect.loadAttempt b ∉ fx) := by
  cases ht : o.trainOk with
  | false =>
    refine ⟨fun hcontr => absurd hcontr (by simp [ht]), fun _ =>
      ⟨[Effect.putText "Training, please wait..." 20, Effect.imshow,
        Effect.waitKey, Effect.trainerRun], ?_, ?_⟩⟩
    · simp [train, put_text, hci, ht]
    · intro b
      simp
  | true =>
    refine ⟨fun _ => ?_, fun hcontr => absurd hcontr (by simp [ht])⟩
    cases hlo : o.loadOk with
    | true =>
      refine ⟨{ st with localizer := true, mode := Mode.DETECT },
        [Effect.putText "Training, please wait..." 20, Effect.imshow,
         Effect.waitKey, Effect.trainerRun, Effect.loadAttempt true,
         Effect.printMsg "Training done!"], ?_, ?_⟩
      · simp [train, put_text, hci, ht, hlo, load_model, localizerCtor]
      · simp [hlo]
    | false =>
      refine ⟨{ st with localizer := false },
        [Effect.putText "Training, please wait..." 20, Effect.imshow,
         Effect.waitKey, Effect.trainerRun, Effect.loadAttempt false,
         Effect.logExc, Effect.printMsg "Training done!"], ?_, ?_⟩
      · simp [train, put_text, hci, ht, hlo, load_model, localizerCtor]
      · simp [hlo]

/-- Witness for C3 at a concrete state with a camera image present. -/
theorem reload_attempted_iff_trainer_succeeds_witness :
    (demoOracleNoLoad.trainOk = true →
      ∃ st2 fx, train demoOracleNoLoad readySt = HRes.ok st2 fx ∧
        Effect.loadAttempt demoOracleNoLoad.loadOk ∈ fx) ∧
    (demoOracleNoLoad.trainOk = false →
      ∃ fx, train demoOracleNoLoad readySt = HRes.err Exn.trainerError fx ∧
        ∀ b : Bool, Effect.loadAttempt b ∉ fx) :=
  reload_attempted_iff_trainer_succeeds demoOracleNoLoad readySt (270, 360) rfl

/-- C4, amended: the five calibration target positions are the canvas
center plus the four corners offset by the full object size, so each
corner pose lies at coordinatewise distance objectSize from its image
corner. -/
theorem calibration_positions_center_and_inset_corners (h w objectSize : ℚ)
    (hobj : 0 ≤ objectSize) :
    (positions h w objectSize).get? 0 = some (w / 2, h / 2) ∧
    cornerOffsets h w objectSize = List.replicate 4 (objectSize, objectSize) := by
  refine ⟨rfl, ?_⟩
  simp [cornerOffsets, positions, cornersOf, List.replicate,
        sub_sub_cancel_left, abs_neg, sub_zero, abs_of_nonneg hobj]

/-- Witness for C4 at the concrete 270 by 360 canvas with object size
60. -/
theorem calibration_positions_witness :
    (0 : ℚ) ≤ 60 ∧
    ((positions 270 360 60).get? 0 = some (360 / 2, 270 / 2) ∧
     cornerOffsets 270 360 60 = List.replicate 4 (60, 60)) :=
  ⟨by norm_num, calibration_positions_center_and_inset_corners 270 360 60 (by norm_num)⟩

/-- C6: every model fault is absorbed at its handler boundary: detect
returns normally for every oracle outcome, and on a predict failure it
demotes the model handle, logs the exception and shows the no model
caption; load model on a construction failure returns the demoted state
with a logged diagnostic, never propagating. -/
theorem model_faults_absorbed_at_handler_boundary (o : Oracle) (st : State)
    (ci : ℚ × ℚ) (hci : st.cameraImage = some ci) :
    (∃ st2 fx, detect o st = HRes.ok st2 fx ∧
      (o.predictOk = false → st.localizer = true →
        st2.localizer = false ∧ Effect.logExc ∈ fx ∧
          Effect.putText "No model loaded" 80 ∈ fx)) ∧
    (∀ st3 : State, o.loadOk = false →
      load_model o st3 =
        ({ st3 with localizer := false }, [Effect.loadAttempt false, Effect.logExc])) := by
  constructor
  · cases hl : st.localizer with
    | false =>
      refine ⟨st, [Effect.putText "No model loaded" 80], ?_, ?_⟩
      · simp [detect, put_text, predictCall, hci, hl]
      · intro _ hcontr
        exact Bool.noConfusion hcontr
    | true =>
      cases hp : o.predictOk with
      | true =>
        refine ⟨st, o.detections.map (fun p => Effect.drawPose p.1 p.2) ++
            [Effect.putText "Detecting. Show object to the camera." 20], ?_, ?_⟩
        · simp [detect, put_text, predictCall, hci, hl, hp]
        · intro hcontr
          exact Bool.noConfusion hcontr
      | false =>
        refine ⟨{ st with localizer := false },
            [Effect.logExc, Effect.putText "No model loaded" 80], ?_, ?_⟩
        · simp [detect, put_text, predictCall, hci, hl, hp]
        · intro _ _
          exact ⟨rfl, by simp, by simp⟩
  · intro st3 hlo
    simp [load_model, localizerCtor, hlo]

/-- Witness for C6 at a concrete state with the model handle present and
a failing predict call. -/
theorem model_faults_absorbed_witness :
    (∃ st2 fx,
      detect { loadOk := false, trainOk := true, predictOk := false, detections := [] }
          { readySt with localizer := true } = HRes.ok st2 fx ∧
      ((Oracle.mk false true false []).predictOk = false →
        ({ readySt with localizer := true } : State).localizer = true →
        st2.localizer = false ∧ Effect.logExc ∈ fx ∧
          Effect.putText "No model loaded" 80 ∈ fx)) ∧
    (∀ st3 : State, (Oracle.mk false true false []).loadOk = false →
      load_model (Oracle.mk false true false []) st3 =
        ({ st3 with localizer := false }, [Effect.loadAttempt false, Effect.logExc])) :=
  model_faults_absorbed_at_handler_boundary (Oracle.mk false true false [])
    { readySt with localizer := true } (270, 360) rfl

/-- C10: if the retrain key is the first event handled, before any frame
has been acquired, the train handler dereferences the still absent camera
image while rendering the waiting caption and raises an AttributeError
that terminates the loop. -/
theorem retrain_before_first_frame_raises (o oInit : Oracle) (objectSize : ℚ)
    (frame : Option (List ℕ)) :
    step o (initSession oInit objectSize).1 keyRetrain frame =
      StepResult.exn Exn.attributeError [] := by
  cases hlo : oInit.loadOk <;>
    simp [step, initSession, initState, load_model, localizerCtor, hlo, handleKeys,
          train, put_text, keyQuit, keyNew, keyRetrain]

end HandsOnDemo
